import Mathlib

set_option autoImplicit false

/-!
Shallow embedding of the drive-thru order reconciliation engine:
the domain model of `src/stage_3/models.py` / `src/stage_3/enums.py`
and the reconciliation and routing logic of
`src/orchestrator/orchestrator/graph.py` (`update_order`,
`should_end_after_update`), together with theorems about merge algebra,
turn scoping, finalize detection and failure semantics.
-/

/-- Embeds `Size` (enums.py): snack/small/medium/large/regular. -/
inductive Size where
  | snack
  | small
  | medium
  | large
  | regular
  deriving DecidableEq, Repr

/-- Embeds the `Size(...)` string-enum constructor: returns the member for a
valid value string, `none` where Python raises `ValueError`. -/
def Size.fromString? : String → Option Size
  | "snack" => some .snack
  | "small" => some .small
  | "medium" => some .medium
  | "large" => some .large
  | "regular" => some .regular
  | _ => none

/-- Embeds `CategoryName` (enums.py). -/
inductive CategoryName where
  | breakfast
  | beefPork
  | chickenFish
  | salads
  | snacksSides
  | desserts
  | beverages
  | coffeeTea
  | smoothiesShakes
  deriving DecidableEq, Repr

/-- Embeds the `CategoryName(...)` string-enum constructor: `none` where
Python raises `ValueError`. -/
def CategoryName.fromString? : String → Option CategoryName
  | "breakfast" => some .breakfast
  | "beef-pork" => some .beefPork
  | "chicken-fish" => some .chickenFish
  | "salads" => some .salads
  | "snacks-sides" => some .snacksSides
  | "desserts" => some .desserts
  | "beverages" => some .beverages
  | "coffee-tea" => some .coffeeTea
  | "smoothies-shakes" => some .smoothiesShakes
  | _ => none

/-- Embeds `Modifier` (models.py): identity is `(modifier_id, name)`, which is
exactly structural equality of this two-field structure. -/
structure Modifier where
  modifier_id : String
  name : String
  deriving DecidableEq, Repr

/-- Embeds `Item` (models.py) after pydantic validation: `size` is always
populated (the `set_size_from_default` validator replaces a missing size by
`default_size`), `quantity` is an integer (the `ge=1` bound is enforced at
construction sites, stated as a hypothesis where relevant). -/
structure Item where
  item_id : String
  name : String
  category_name : CategoryName
  default_size : Size
  size : Size
  quantity : Int
  modifiers : List Modifier
  available_modifiers : List Modifier
  deriving DecidableEq, Repr

/-- Embeds Python `set(xs) == set(ys)` on modifier lists: the two lists hold
exactly the same elements. -/
def modSetEq (xs ys : List Modifier) : Bool :=
  (xs.all fun m => decide (m ∈ ys)) && (ys.all fun m => decide (m ∈ xs))

/-- Embeds `Item._is_same_item`: same `item_id`, `name`, `category_name` and
modifier set. Size, default size, quantity and available modifiers are not
part of the merge identity. -/
def isSameItem (a b : Item) : Bool :=
  decide (a.item_id = b.item_id) && decide (a.name = b.name) &&
    decide (a.category_name = b.category_name) && modSetEq a.modifiers b.modifiers

/-- The successful payload of `Item.__add__`: every field is copied from the
left operand except `quantity`, which is the sum. -/
def Item.mergeWith (a b : Item) : Item :=
  { a with quantity := a.quantity + b.quantity }

/-- Embeds `Item.__add__`: `none` models the `NotImplemented` path (which
Python turns into `TypeError`, no `__radd__` existing) and the pydantic
`ge=1` re-validation failure on the summed quantity. -/
def Item.addOp (a b : Item) : Option Item :=
  if isSameItem a b then
    if 1 ≤ a.quantity + b.quantity then some (a.mergeWith b) else none
  else none

/-- Embeds `Item.__lt__`: `NotImplemented` as `none` for items of different
configuration. -/
def Item.ltOp (a b : Item) : Option Bool :=
  if isSameItem a b then some (decide (a.quantity < b.quantity)) else none

/-- Embeds `Item.__le__`. -/
def Item.leOp (a b : Item) : Option Bool :=
  if isSameItem a b then some (decide (a.quantity ≤ b.quantity)) else none

/-- Embeds `Item.__gt__`. -/
def Item.gtOp (a b : Item) : Option Bool :=
  if isSameItem a b then some (decide (b.quantity < a.quantity)) else none

/-- Embeds `Item.__ge__`. -/
def Item.geOp (a b : Item) : Option Bool :=
  if isSameItem a b then some (decide (b.quantity ≤ a.quantity)) else none

/-- Semantics of the Python expression `a + b`: `__add__` only (no
`__radd__` is defined), so `none` means the expression raises `TypeError`. -/
def Item.pyAdd (a b : Item) : Option Item :=
  a.addOp b

/-- Semantics of the Python expression `a < b`: `a.__lt__(b)`, falling back
to the reflected `b.__gt__(a)`; `none` means the expression raises
`TypeError`. -/
def Item.pyLt (a b : Item) : Option Bool :=
  (a.ltOp b).orElse fun _ => b.gtOp a

/-- Semantics of the Python expression `a <= b` (reflected partner is
`b.__ge__(a)`). -/
def Item.pyLe (a b : Item) : Option Bool :=
  (a.leOp b).orElse fun _ => b.geOp a

/-- Semantics of the Python expression `a > b` (reflected partner is
`b.__lt__(a)`). -/
def Item.pyGt (a b : Item) : Option Bool :=
  (a.gtOp b).orElse fun _ => b.ltOp a

/-- Semantics of the Python expression `a >= b` (reflected partner is
`b.__le__(a)`). -/
def Item.pyGe (a b : Item) : Option Bool :=
  (a.geOp b).orElse fun _ => b.leOp a

/-- Embeds `Order` (models.py): an id and a sequence of line items. -/
structure Order where
  order_id : String
  items : List Item
  deriving DecidableEq, Repr

/-- Embeds `Location` (models.py). -/
structure Location where
  id : String
  name : String
  address : String
  city : String
  state : String
  zip : String
  country : String
  deriving DecidableEq, Repr

/-- Embeds `Menu` (models.py). -/
structure Menu where
  menu_id : String
  menu_name : String
  menu_version : String
  location : Location
  items : List Item
  deriving DecidableEq, Repr

/-- Modelled from the spec: the line-merging of `Order.__add__`, whose source
(`orchestrator/models.py`) is not under src (only `stage_3/models.py` is, and
its `Order` carries no merge). Spec section 3: merging an incoming item into
the order collapses it into the existing line of the same configuration with
summed quantity (via the `Item` `+` rule), and appends a new line otherwise;
the order is replaced wholesale, never mutated in place. -/
def addToLines : List Item → Item → List Item
  | [], it => [it]
  | x :: xs, it =>
    if isSameItem x it then x.mergeWith it :: xs else x :: addToLines xs it

/-- Modelled from the spec: `Order.__add__` (see `addToLines`). -/
def Order.addItem (o : Order) (it : Item) : Order :=
  { o with items := addToLines o.items it }

/-- Total quantity carried by the order lines of the same configuration as
`t`. -/
def lineQty (ls : List Item) (t : Item) : Int :=
  ((ls.filter fun x => isSameItem x t).map Item.quantity).sum

/-- Total quantity an order carries for the configuration of `t`. -/
def qtyOf (o : Order) (t : Item) : Int :=
  lineQty o.items t

/--
A raw modifier entry of a tool-result record before validation: either field
may be missing (`Modifier(**m)` then raises a validation error).
-/
structure RawModifier where
  modifier_id : Option String
  name : Option String
  deriving DecidableEq, Repr

/--
A raw `add_item_to_order` tool-result record as parsed from the
`ToolMessage` JSON content; every field may be absent.
-/
structure RawResult where
  added : Option Bool
  item_id : Option String
  item_name : Option String
  category_name : Option String
  quantity : Option Int
  size : Option String
  modifiers : Option (List RawModifier)
  deriving DecidableEq, Repr

/-- Embeds `Modifier(**m)`: succeeds only when both fields are present. -/
def parseModifier? : RawModifier → Option Modifier
  | ⟨some i, some n⟩ => some ⟨i, n⟩
  | _ => none

/-- Embeds the list comprehension `[Modifier(**m) for m in ...]`: `none`
models a raised validation error on any entry. -/
def parseModifiers? (ms : List RawModifier) : Option (List Modifier) :=
  ms.mapM parseModifier?

/-- Embeds `Size(result["size"]) if result.get("size") else None`: an absent
or empty string is falsy and yields no selected size; a non-empty string
must be a valid `Size` value, else `ValueError` is raised. -/
def sizeEval : Option String → Except String (Option Size)
  | none => .ok none
  | some s =>
    if s = "" then .ok none
    else
      match Size.fromString? s with
      | some sz => .ok (some sz)
      | none => .error "ValueError: size"

/--
A conversation message, as far as the reconciliation scan observes it:
an AI message carries `tool_calls` (the names of the requested operations),
a tool message carries the tool name and its result record, and a human
message carries only text (no `tool_calls` attribute).
-/
inductive Msg where
  | ai (tool_calls : List String)
  | tool (name : String) (content : RawResult)
  | human (text : String)
  deriving DecidableEq, Repr

/-- Embeds the scan condition
`hasattr(msg, "tool_calls") and msg.tool_calls`: only an AI message with a
non-empty list of requested operations is a decision point. -/
def isDecision : Msg → Bool
  | .ai calls => decide (calls ≠ [])
  | _ => false

/-- The messages strictly after the last decision point, `none` when no
decision point exists. -/
def afterLastDecision : List Msg → Option (List Msg)
  | [] => none
  | m :: ms =>
    match afterLastDecision ms with
    | some t => some t
    | none => if isDecision m then some ms else none

/-- Embeds the scope computation shared by `update_order` and
`should_end_after_update`:
`messages[last_ai_idx + 1 :] if last_ai_idx >= 0 else []`. -/
def scopedBatch (msgs : List Msg) : List Msg :=
  (afterLastDecision msgs).getD []

/--
Embeds the per-record body of the `update_order` loop. `Except.error`
models an uncaught Python exception (`KeyError`, enum `ValueError`,
pydantic validation error); `Except.ok` returns the (possibly unchanged)
order. Falsy `added` skips the record; an unresolved catalog id skips the
record; otherwise the new line item is constructed and merged.
-/
def processRecord (menu : Menu) (o : Order) (r : RawResult) : Except String Order :=
  if r.added.getD false = false then .ok o
  else if menu.items.isEmpty then .ok o
  else
    match r.item_id with
    | none => .error "KeyError: item_id"
    | some iid =>
      match menu.items.find? fun i => decide (i.item_id = iid) with
      | none => .ok o
      | some menuItem =>
        match r.item_name with
        | none => .error "KeyError: item_name"
        | some nm =>
          match r.category_name with
          | none => .error "KeyError: category_name"
          | some cs =>
            match CategoryName.fromString? cs with
            | none => .error "ValueError: category_name"
            | some cat =>
              match sizeEval r.size with
              | .error e => .error e
              | .ok szOpt =>
                match r.quantity with
                | none => .error "KeyError: quantity"
                | some q =>
                  match parseModifiers? (r.modifiers.getD []) with
                  | none => .error "ValidationError: modifier"
                  | some mods =>
                    if q < 1 then .error "ValidationError: quantity"
                    else .ok (o.addItem
                      { item_id := iid, name := nm, category_name := cat,
                        default_size := menuItem.default_size,
                        size := szOpt.getD menuItem.default_size,
                        quantity := q, modifiers := mods,
                        available_modifiers := [] })

/-- Embeds the `update_order` loop over the in-scope batch: non-tool
messages and tool messages of other tools are skipped; each
`add_item_to_order` record is folded into the order. -/
def applyBatch (menu : Menu) : Order → List Msg → Except String Order
  | o, [] => .ok o
  | o, .tool nm r :: ms =>
    if nm = "add_item_to_order" then
      match processRecord menu o r with
      | .ok o2 => applyBatch menu o2 ms
      | .error e => .error e
    else applyBatch menu o ms
  | o, .ai _ :: ms => applyBatch menu o ms
  | o, .human _ :: ms => applyBatch menu o ms

/-- Embeds `DriveThruState`: message log, menu, current order, reasoning
log. -/
structure DriveThruState where
  messages : List Msg
  menu : Menu
  current_order : Order
  reasoning : List String
  deriving DecidableEq, Repr

/-- Embeds the `update_order` node: folds the in-scope batch into the
current order and returns the state with only `current_order` replaced
(the LangGraph partial-state return `{"current_order": current_order}`). -/
def update_order (s : DriveThruState) : Except String DriveThruState :=
  (applyBatch s.menu s.current_order (scopedBatch s.messages)).map
    fun o => { s with current_order := o }

/-- A tool message produced by `finalize_order`. -/
def isFinalizeMsg : Msg → Bool
  | .tool nm _ => decide (nm = "finalize_order")
  | _ => false

/-- Embeds `should_end_after_update`: routes to END exactly when a
`finalize_order` tool message occurs in the in-scope batch. -/
def should_end_after_update (s : DriveThruState) : String :=
  if (scopedBatch s.messages).any isFinalizeMsg then "end" else "continue"

theorem modSetEq_iff (xs ys : List Modifier) :
    modSetEq xs ys = true ↔ (∀ m ∈ xs, m ∈ ys) ∧ (∀ m ∈ ys, m ∈ xs) := by
  simp [modSetEq, List.all_eq_true]

theorem modSetEq_refl (xs : List Modifier) : modSetEq xs xs = true := by
  simp [modSetEq_iff]

theorem modSetEq_symm {xs ys : List Modifier} (h : modSetEq xs ys = true) :
    modSetEq ys xs = true := by
  rcases (modSetEq_iff xs ys).1 h with ⟨h1, h2⟩
  exact (modSetEq_iff ys xs).2 ⟨h2, h1⟩

theorem modSetEq_trans {xs ys zs : List Modifier} (h1 : modSetEq xs ys = true)
    (h2 : modSetEq ys zs = true) : modSetEq xs zs = true := by
  rcases (modSetEq_iff xs ys).1 h1 with ⟨a1, a2⟩
  rcases (modSetEq_iff ys zs).1 h2 with ⟨b1, b2⟩
  exact (modSetEq_iff xs zs).2
    ⟨fun m hm => b1 m (a1 m hm), fun m hm => a2 m (b2 m hm)⟩

theorem isSameItem_iff (a b : Item) :
    isSameItem a b = true ↔
      a.item_id = b.item_id ∧ a.name = b.name ∧
        a.category_name = b.category_name ∧
        modSetEq a.modifiers b.modifiers = true := by
  simp [isSameItem, and_assoc]

theorem isSameItem_refl (a : Item) : isSameItem a a = true := by
  simp [isSameItem_iff, modSetEq_refl]

theorem isSameItem_symm {a b : Item} (h : isSameItem a b = true) :
    isSameItem b a = true := by
  rcases (isSameItem_iff a b).1 h with ⟨h1, h2, h3, h4⟩
  exact (isSameItem_iff b a).2 ⟨h1.symm, h2.symm, h3.symm, modSetEq_symm h4⟩

theorem isSameItem_trans {a b c : Item} (h1 : isSameItem a b = true)
    (h2 : isSameItem b c = true) : isSameItem a c = true := by
  rcases (isSameItem_iff a b).1 h1 with ⟨a1, a2, a3, a4⟩
  rcases (isSameItem_iff b c).1 h2 with ⟨b1, b2, b3, b4⟩
  exact (isSameItem_iff a c).2
    ⟨a1.trans b1, a2.trans b2, a3.trans b3, modSetEq_trans a4 b4⟩

@[simp] theorem mergeWith_item_id (a b : Item) :
    (a.mergeWith b).item_id = a.item_id := rfl

@[simp] theorem mergeWith_name (a b : Item) :
    (a.mergeWith b).name = a.name := rfl

@[simp] theorem mergeWith_category (a b : Item) :
    (a.mergeWith b).category_name = a.category_name := rfl

@[simp] theorem mergeWith_default_size (a b : Item) :
    (a.mergeWith b).default_size = a.default_size := rfl

@[simp] theorem mergeWith_size (a b : Item) :
    (a.mergeWith b).size = a.size := rfl

@[simp] theorem mergeWith_quantity (a b : Item) :
    (a.mergeWith b).quantity = a.quantity + b.quantity := rfl

@[simp] theorem mergeWith_modifiers (a b : Item) :
    (a.mergeWith b).modifiers = a.modifiers := rfl

theorem isSameItem_mergeWith_left (a b t : Item) :
    isSameItem (a.mergeWith b) t = isSameItem a t := by
  simp [isSameItem, Item.mergeWith]

theorem afterLastDecision_eq_none {l : List Msg}
    (h : ∀ m ∈ l, isDecision m = false) : afterLastDecision l = none := by
  induction l with
  | nil => rfl
  | cons m ms ih =>
    have hm : isDecision m = false := h m (List.mem_cons_self m ms)
    have hms : afterLastDecision ms = none :=
      ih fun x hx => h x (List.mem_cons_of_mem m hx)
    simp [afterLastDecision, hms, hm]

theorem afterLastDecision_append_some {l r : List Msg} {t : List Msg}
    (h : afterLastDecision r = some t) :
    afterLastDecision (l ++ r) = some t := by
  induction l with
  | nil => simpa using h
  | cons m ms ih => simp [afterLastDecision, ih]

theorem scopedBatch_turn (msgs batch : List Msg) (calls : List String)
    (hc : calls ≠ []) (hb : ∀ m ∈ batch, isDecision m = false) :
    scopedBatch (msgs ++ Msg.ai calls :: batch) = batch := by
  have h1 : afterLastDecision (Msg.ai calls :: batch) = some batch := by
    simp [afterLastDecision, afterLastDecision_eq_none hb, isDecision, hc]
  rw [scopedBatch, afterLastDecision_append_some h1]
  rfl

theorem lineQty_nil (t : Item) : lineQty [] t = 0 := rfl

theorem lineQty_cons (x : Item) (xs : List Item) (t : Item) :
    lineQty (x :: xs) t =
      (if isSameItem x t then x.quantity else 0) + lineQty xs t := by
  by_cases hx : isSameItem x t
  · simp [lineQty, List.filter_cons, hx]
  · simp [lineQty, List.filter_cons, hx]

theorem lineQty_addToLines (ls : List Item) (it t : Item)
    (h : isSameItem it t = true) :
    lineQty (addToLines ls it) t = lineQty ls t + it.quantity := by
  induction ls with
  | nil => simp [addToLines, lineQty_cons, lineQty_nil, h]
  | cons x xs ih =>
    by_cases hx : isSameItem x it
    · have hxt : isSameItem x t = true := isSameItem_trans hx h
      simp [addToLines, hx, lineQty_cons, isSameItem_mergeWith_left, hxt]
      omega
    · have hxt : isSameItem x t = false := by
        cases hq : isSameItem x t with
        | false => rfl
        | true => exact absurd (isSameItem_trans hq (isSameItem_symm h)) (by simp [hx])
      simp [addToLines, hx, lineQty_cons, hxt, ih]

/-- A sample modifier used by concrete instances. -/
def exMod : Modifier := ⟨"m1", "Egg"⟩

/-- A sample order line: one Egg McMuffin with one modifier. -/
def itemA : Item :=
  { item_id := "i1", name := "Egg McMuffin", category_name := .breakfast,
    default_size := .regular, size := .regular, quantity := 1,
    modifiers := [exMod], available_modifiers := [] }

/-- Same configuration as `itemA` but quantity 2 and a different selected
size. -/
def itemALarge : Item :=
  { item_id := "i1", name := "Egg McMuffin", category_name := .breakfast,
    default_size := .regular, size := .large, quantity := 2,
    modifiers := [exMod], available_modifiers := [] }

/-- A differently-configured line (different `item_id`, name, category,
modifier set). -/
def itemB : Item :=
  { item_id := "i2", name := "Hash Browns", category_name := .snacksSides,
    default_size := .regular, size := .regular, quantity := 1,
    modifiers := [], available_modifiers := [] }

/-- Claim C2: merging two same-configuration items succeeds and yields an
item whose quantity is the sum of the quantities and whose identity fields
(`item_id`, `name`, `category_name`) and modifier list come from the left
operand. -/
theorem c2_same_config_merge (a b : Item)
    (hid : a.item_id = b.item_id) (hn : a.name = b.name)
    (hc : a.category_name = b.category_name)
    (hm : modSetEq a.modifiers b.modifiers = true)
    (hqa : 1 ≤ a.quantity) (hqb : 1 ≤ b.quantity) :
    ∃ c, Item.pyAdd a b = some c ∧ c.quantity = a.quantity + b.quantity ∧
      c.item_id = a.item_id ∧ c.name = a.name ∧
      c.category_name = a.category_name ∧ c.modifiers = a.modifiers := by
  have hs : isSameItem a b = true := (isSameItem_iff a b).2 ⟨hid, hn, hc, hm⟩
  refine ⟨a.mergeWith b, ?_, by simp, by simp, by simp, by simp, by simp⟩
  rw [Item.pyAdd, Item.addOp, if_pos hs, if_pos (by omega)]

/-- Claim C2 witness: `itemA + itemALarge` at concrete values. -/
theorem c2_witness :
    itemA.item_id = itemALarge.item_id ∧ itemA.name = itemALarge.name ∧
      itemA.category_name = itemALarge.category_name ∧
      modSetEq itemA.modifiers itemALarge.modifiers = true ∧
      1 ≤ itemA.quantity ∧ 1 ≤ itemALarge.quantity ∧
      (∃ c, Item.pyAdd itemA itemALarge = some c ∧
        c.quantity = itemA.quantity + itemALarge.quantity ∧
        c.item_id = itemA.item_id ∧ c.name = itemA.name ∧
        c.category_name = itemA.category_name ∧ c.modifiers = itemA.modifiers) :=
  ⟨rfl, rfl, rfl, by decide, by decide, by decide,
    c2_same_config_merge itemA itemALarge rfl rfl rfl (by decide) (by decide)
      (by decide)⟩

/-- Claim C5: for two items that differ in `item_id`, `name`,
`category_name` or modifier set, the merge `a + b` and every ordering
comparison signal a type error (modelled as `none`: both dunder and
reflected dunder return `NotImplemented`, so Python raises `TypeError`)
rather than returning a value. -/
theorem c5_cross_config_invalid (a b : Item)
    (hdiff : a.item_id ≠ b.item_id ∨ a.name ≠ b.name ∨
      a.category_name ≠ b.category_name ∨
      modSetEq a.modifiers b.modifiers = false) :
    Item.pyAdd a b = none ∧ Item.pyLt a b = none ∧ Item.pyLe a b = none ∧
      Item.pyGt a b = none ∧ Item.pyGe a b = none := by
  have hab : isSameItem a b = false := by
    cases hq : isSameItem a b with
    | false => rfl
    | true =>
      rcases (isSameItem_iff a b).1 hq with ⟨h1, h2, h3, h4⟩
      rcases hdiff with d | d | d | d
      · exact absurd h1 d
      · exact absurd h2 d
      · exact absurd h3 d
      · rw [d] at h4
        cases h4
  have hba : isSameItem b a = false := by
    cases hq : isSameItem b a with
    | false => rfl
    | true =>
      have := isSameItem_symm hq
      rw [hab] at this
      cases this
  refine ⟨?_, ?_, ?_, ?_, ?_⟩ <;>
    simp [Item.pyAdd, Item.addOp, Item.pyLt, Item.ltOp, Item.gtOp,
      Item.pyLe, Item.leOp, Item.geOp, Item.pyGt, Item.pyGe,
      Option.orElse, hab, hba]

/-- Claim C5 witness: `itemA` against `itemB` at concrete values. -/
theorem c5_witness :
    (itemA.item_id ≠ itemB.item_id ∨ itemA.name ≠ itemB.name ∨
      itemA.category_name ≠ itemB.category_name ∨
      modSetEq itemA.modifiers itemB.modifiers = false) ∧
      Item.pyAdd itemA itemB = none ∧ Item.pyLt itemA itemB = none ∧
      Item.pyLe itemA itemB = none ∧ Item.pyGt itemA itemB = none ∧
      Item.pyGe itemA itemB = none :=
  ⟨Or.inl (by decide), c5_cross_config_invalid itemA itemB (Or.inl (by decide))⟩

/-- Claim C9: size is not part of the merge identity — two items agreeing on
`item_id`, `name`, `category_name` and modifier set but with different
selected sizes still merge; the result carries the left operand's `size`
and `default_size`, and the right operand's size is discarded. -/
theorem c9_size_not_identity (a b : Item)
    (hid : a.item_id = b.item_id) (hn : a.name = b.name)
    (hc : a.category_name = b.category_name)
    (hm : modSetEq a.modifiers b.modifiers = true)
    (hsz : a.size ≠ b.size)
    (hqa : 1 ≤ a.quantity) (hqb : 1 ≤ b.quantity) :
    ∃ c, Item.pyAdd a b = some c ∧ c.size = a.size ∧
      c.default_size = a.default_size ∧
      c.quantity = a.quantity + b.quantity ∧ c.size ≠ b.size := by
  have hs : isSameItem a b = true := (isSameItem_iff a b).2 ⟨hid, hn, hc, hm⟩
  refine ⟨a.mergeWith b, ?_, by simp, by simp, by simp, by simpa using hsz⟩
  rw [Item.pyAdd, Item.addOp, if_pos hs, if_pos (by omega)]

/-- Claim C9 witness: `itemA` (size regular) merged with `itemALarge`
(size large) at concrete values. -/
theorem c9_witness :
    itemA.item_id = itemALarge.item_id ∧ itemA.name = itemALarge.name ∧
      itemA.category_name = itemALarge.category_name ∧
      modSetEq itemA.modifiers itemALarge.modifiers = true ∧
      itemA.size ≠ itemALarge.size ∧
      1 ≤ itemA.quantity ∧ 1 ≤ itemALarge.quantity ∧
      (∃ c, Item.pyAdd itemA itemALarge = some c ∧ c.size = itemA.size ∧
        c.default_size = itemA.default_size ∧
        c.quantity = itemA.quantity + itemALarge.quantity ∧
        c.size ≠ itemALarge.size) :=
  ⟨rfl, rfl, rfl, by decide, by decide, by decide, by decide,
    c9_size_not_identity itemA itemALarge rfl rfl rfl (by decide) (by decide)
      (by decide) (by decide)⟩

/-- Claim C6: folding two same-configuration add-results into an order in
either order yields the same final quantity for that configuration, namely
the previous quantity plus the sum of the two added quantities. -/
theorem c6_merge_commutative (o : Order) (i1 i2 : Item)
    (h : isSameItem i1 i2 = true) :
    qtyOf ((o.addItem i1).addItem i2) i1 = qtyOf ((o.addItem i2).addItem i1) i1 ∧
      qtyOf ((o.addItem i1).addItem i2) i1 =
        qtyOf o i1 + (i1.quantity + i2.quantity) := by
  have h21 : isSameItem i2 i1 = true := isSameItem_symm h
  have h11 : isSameItem i1 i1 = true := isSameItem_refl i1
  have e1 : qtyOf ((o.addItem i1).addItem i2) i1 =
      lineQty o.items i1 + i1.quantity + i2.quantity := by
    show lineQty (addToLines (addToLines o.items i1) i2) i1 = _
    rw [lineQty_addToLines _ i2 i1 h21, lineQty_addToLines _ i1 i1 h11]
  have e2 : qtyOf ((o.addItem i2).addItem i1) i1 =
      lineQty o.items i1 + i2.quantity + i1.quantity := by
    show lineQty (addToLines (addToLines o.items i2) i1) i1 = _
    rw [lineQty_addToLines _ i1 i1 h11, lineQty_addToLines _ i2 i1 h21]
  refine ⟨?_, ?_⟩
  · rw [e1, e2]
    ring
  · rw [e1]
    show _ = lineQty o.items i1 + (i1.quantity + i2.quantity)
    ring

/-- A sample order holding one line of `itemA`. -/
def orderWithA : Order := { order_id := "o0", items := [itemA] }

/-- Claim C6 witness: reconciling `itemA` and `itemALarge` into a concrete
order in either order. -/
theorem c6_witness :
    isSameItem itemA itemALarge = true ∧
      (qtyOf ((orderWithA.addItem itemA).addItem itemALarge) itemA =
          qtyOf ((orderWithA.addItem itemALarge).addItem itemA) itemA ∧
        qtyOf ((orderWithA.addItem itemA).addItem itemALarge) itemA =
          qtyOf orderWithA itemA + (itemA.quantity + itemALarge.quantity)) :=
  ⟨by decide, c6_merge_commutative orderWithA itemA itemALarge (by decide)⟩

/-- A sample catalog item with one available modifier. -/
def exMenuItem : Item :=
  { item_id := "i1", name := "Egg McMuffin", category_name := .breakfast,
    default_size := .regular, size := .regular, quantity := 1,
    modifiers := [], available_modifiers := [exMod] }

/-- A sample location. -/
def exLocation : Location :=
  ⟨"loc1", "McD", "1 Main St", "Springfield", "IL", "62701", "USA"⟩

/-- A sample one-item menu. -/
def exMenu : Menu :=
  { menu_id := "mcd-breakfast-menu", menu_name := "Breakfast",
    menu_version := "v2", location := exLocation, items := [exMenuItem] }

/-- A sample empty order. -/
def exOrder : Order := { order_id := "o1", items := [] }

/-- A well-formed successful add-result for `exMenuItem`, quantity 2. -/
def exResult : RawResult :=
  { added := some true, item_id := some "i1", item_name := some "Egg McMuffin",
    category_name := some "breakfast", quantity := some 2, size := none,
    modifiers := some [] }

/-- A prior-turn add-result (quantity 5) that must never be re-applied. -/
def oldResult : RawResult :=
  { added := some true, item_id := some "i1", item_name := some "Egg McMuffin",
    category_name := some "breakfast", quantity := some 5, size := none,
    modifiers := some [] }

/-- Claim C1: reconciliation scope isolation — on a log that ends with a
decision point (an AI message with a non-empty set of requested operations)
followed by its tool batch, `update_order` folds exactly that batch into
the current order; every message before the decision point, including all
prior turns' tool results, is outside the fold, so the outcome is
`applyBatch` of the new batch alone. -/
theorem c1_scope_isolation (msgs batch : List Msg) (calls : List String)
    (menu : Menu) (ord : Order) (rs : List String)
    (hc : calls ≠ []) (hb : ∀ m ∈ batch, isDecision m = false) :
    update_order
        { messages := msgs ++ Msg.ai calls :: batch, menu := menu,
          current_order := ord, reasoning := rs } =
      (applyBatch menu ord batch).map fun o =>
        { messages := msgs ++ Msg.ai calls :: batch, menu := menu,
          current_order := o, reasoning := rs } := by
  rw [update_order]
  rw [show ({ messages := msgs ++ Msg.ai calls :: batch, menu := menu,
              current_order := ord, reasoning := rs } : DriveThruState).messages =
        msgs ++ Msg.ai calls :: batch from rfl]
  rw [scopedBatch_turn msgs batch calls hc hb]

/-- The two-turn message log of the C1 witness: a prior turn that already
added quantity 5, then a new decision point and its batch adding
quantity 2. -/
def twoTurnLog : List Msg :=
  [Msg.ai ["add_item_to_order"], Msg.tool "add_item_to_order" oldResult] ++
    Msg.ai ["add_item_to_order"] :: [Msg.tool "add_item_to_order" exResult]

/-- Claim C1 witness: on the two-turn log, reconciliation folds only the new
batch (quantity 2); the prior turn's quantity-5 result stays out of scope. -/
theorem c1_witness :
    (["add_item_to_order"] : List String) ≠ [] ∧
      (∀ m ∈ [Msg.tool "add_item_to_order" exResult], isDecision m = false) ∧
      update_order
          { messages := twoTurnLog, menu := exMenu,
            current_order := exOrder, reasoning := [] } =
        (applyBatch exMenu exOrder [Msg.tool "add_item_to_order" exResult]).map
          fun o =>
            { messages := twoTurnLog, menu := exMenu,
              current_order := o, reasoning := [] } :=
  ⟨by decide, by decide,
    c1_scope_isolation
      [Msg.ai ["add_item_to_order"], Msg.tool "add_item_to_order" oldResult]
      [Msg.tool "add_item_to_order" exResult] ["add_item_to_order"]
      exMenu exOrder [] (by decide) (by decide)⟩

/-- Claim C3: routing after reconciliation reaches the terminal state
exactly when a `finalize_order` tool message occurs in the batch after the
most recent decision point; finalize signals in earlier turns are out of
scope and cannot terminate the current turn. -/
theorem c3_finalize_scope (msgs batch : List Msg) (calls : List String)
    (menu : Menu) (ord : Order) (rs : List String)
    (hc : calls ≠ []) (hb : ∀ m ∈ batch, isDecision m = false) :
    (should_end_after_update
        { messages := msgs ++ Msg.ai calls :: batch, menu := menu,
          current_order := ord, reasoning := rs } = "end") ↔
      batch.any isFinalizeMsg = true := by
  rw [should_end_after_update]
  rw [show ({ messages := msgs ++ Msg.ai calls :: batch, menu := menu,
              current_order := ord, reasoning := rs } : DriveThruState).messages =
        msgs ++ Msg.ai calls :: batch from rfl]
  rw [scopedBatch_turn msgs batch calls hc hb]
  cases hany : batch.any isFinalizeMsg with
  | true => simp
  | false =>
    simp only [Bool.false_eq_true, iff_false, if_neg]
    intro hcontra
    exact absurd hcontra (by decide)

/-- A prior-turn finalize result record (content irrelevant to the scan). -/
def staleFinalize : RawResult :=
  { added := none, item_id := none, item_name := none, category_name := none,
    quantity := none, size := none, modifiers := none }

/-- Claim C3 witness, negative side: a log whose previous turn carried a
`finalize_order` result while the current batch has none routes to
"continue", and the iff instantiates concretely. -/
theorem c3_witness :
    (["get_current_order"] : List String) ≠ [] ∧
      (∀ m ∈ [Msg.tool "get_current_order" staleFinalize], isDecision m = false) ∧
      ((should_end_after_update
          { messages :=
              [Msg.ai ["finalize_order"], Msg.tool "finalize_order" staleFinalize] ++
                Msg.ai ["get_current_order"] ::
                  [Msg.tool "get_current_order" staleFinalize],
            menu := exMenu, current_order := exOrder, reasoning := [] } = "end") ↔
        ([Msg.tool "get_current_order" staleFinalize].any isFinalizeMsg = true)) :=
  ⟨by decide, by decide,
    c3_finalize_scope
      [Msg.ai ["finalize_order"], Msg.tool "finalize_order" staleFinalize]
      [Msg.tool "get_current_order" staleFinalize] ["get_current_order"]
      exMenu exOrder [] (by decide) (by decide)⟩

/-- Claim C10: when the message log holds no decision point (no AI message
with a non-empty set of requested operations), `update_order` returns the
state unchanged, and in every case a successful `update_order` leaves
`messages`, `menu` and `reasoning` untouched, replacing only
`current_order`. -/
theorem c10_no_decision_frame (s t : DriveThruState)
    (h : ∀ m ∈ s.messages, isDecision m = false) :
    update_order s = Except.ok s ∧
      ∀ u, update_order t = Except.ok u →
        u.messages = t.messages ∧ u.menu = t.menu ∧ u.reasoning = t.reasoning := by
  constructor
  · have hsc : scopedBatch s.messages = [] := by
      rw [scopedBatch, afterLastDecision_eq_none h]
      rfl
    rw [update_order, hsc]
    rfl
  · intro u hu
    rw [update_order] at hu
    cases happ : applyBatch t.menu t.current_order (scopedBatch t.messages) with
    | error e =>
      rw [happ] at hu
      simp [Except.map] at hu
    | ok o =>
      rw [happ] at hu
      simp only [Except.map, Except.ok.injEq] at hu
      rw [← hu]
      exact ⟨rfl, rfl, rfl⟩

/-- A state whose log holds only a human message and an AI message with no
requested operations. -/
def noDecState : DriveThruState :=
  { messages := [Msg.human "hi", Msg.ai []], menu := exMenu,
    current_order := exOrder, reasoning := [] }

/-- Claim C10 witness: on `noDecState`, reconciliation is the identity. -/
theorem c10_witness :
    (∀ m ∈ noDecState.messages, isDecision m = false) ∧
      (update_order noDecState = Except.ok noDecState ∧
        ∀ u, update_order noDecState = Except.ok u →
          u.messages = noDecState.messages ∧ u.menu = noDecState.menu ∧
            u.reasoning = noDecState.reasoning) :=
  ⟨by decide, c10_no_decision_frame noDecState noDecState (by decide)⟩

/-- Claim C7: an in-scope `add_item_to_order` result with falsy `added`, or
with an `item_id` that resolves to no catalog item, is skipped: the record
leaves the order unchanged, raises nothing, and the rest of the batch is
processed as if the record were absent. -/
theorem c7_skip_failed_and_stale (menu : Menu) (o : Order) (r : RawResult)
    (rest : List Msg)
    (h : r.added.getD false = false ∨
      (r.added.getD false = true ∧ ∃ iid, r.item_id = some iid ∧
        menu.items.find? (fun i => decide (i.item_id = iid)) = none)) :
    processRecord menu o r = .ok o ∧
      applyBatch menu o (Msg.tool "add_item_to_order" r :: rest) =
        applyBatch menu o rest := by
  have hp : processRecord menu o r = .ok o := by
    rcases h with hf | ⟨ht, iid, hid, hfind⟩
    · rw [processRecord, if_pos hf]
    · rw [processRecord, if_neg (by rw [ht]; simp)]
      by_cases hemp : menu.items.isEmpty
      · rw [if_pos hemp]
      · rw [if_neg hemp, hid]
        simp [hfind]
  refine ⟨hp, ?_⟩
  simp [applyBatch, hp]

/-- A failed add-result (`added = false`), as returned for a validation
failure. -/
def failedResult : RawResult :=
  { added := some false, item_id := some "i1", item_name := none,
    category_name := none, quantity := none, size := none, modifiers := none }

/-- Claim C7 witness: the failed record is skipped against the concrete
menu and order. -/
theorem c7_witness :
    (failedResult.added.getD false = false ∨
      (failedResult.added.getD false = true ∧ ∃ iid,
        failedResult.item_id = some iid ∧
          exMenu.items.find? (fun i => decide (i.item_id = iid)) = none)) ∧
      (processRecord exMenu exOrder failedResult = .ok exOrder ∧
        applyBatch exMenu exOrder
            (Msg.tool "add_item_to_order" failedResult ::
              [Msg.tool "add_item_to_order" exResult]) =
          applyBatch exMenu exOrder [Msg.tool "add_item_to_order" exResult]) :=
  ⟨Or.inl (by decide),
    c7_skip_failed_and_stale exMenu exOrder failedResult
      [Msg.tool "add_item_to_order" exResult] (Or.inl (by decide))⟩

/-- Claim C8: an in-scope successful add-result whose `item_id` resolves is
turned into a line item whose `size` is the record's valid size when one is
provided and the resolved catalog item's `default_size` otherwise, whose
`modifiers` are the record's parsed modifier list, and whose
`available_modifiers` are empty; that item is merged into the order. -/
theorem c8_line_construction (menu : Menu) (o : Order) (r : RawResult)
    (iid : String) (mi : Item) (nm cs : String) (cat : CategoryName)
    (szo : Option Size) (q : Int) (mods : List Modifier)
    (h1 : r.added.getD false = true) (h2 : r.item_id = some iid)
    (h3 : menu.items.find? (fun i => decide (i.item_id = iid)) = some mi)
    (h4 : r.item_name = some nm) (h5 : r.category_name = some cs)
    (h6 : CategoryName.fromString? cs = some cat)
    (h7 : sizeEval r.size = Except.ok szo)
    (h8 : r.quantity = some q) (h9 : 1 ≤ q)
    (h10 : parseModifiers? (r.modifiers.getD []) = some mods) :
    processRecord menu o r = Except.ok (o.addItem
        { item_id := iid, name := nm, category_name := cat,
          default_size := mi.default_size,
          size := szo.getD mi.default_size, quantity := q,
          modifiers := mods, available_modifiers := [] }) ∧
      (r.size = none → szo = none) ∧
      (∀ s sz, r.size = some s → Size.fromString? s = some sz →
        szo = some sz) := by
  have hne : menu.items.isEmpty = false := by
    cases hl : menu.items with
    | nil =>
      rw [hl] at h3
      simp [List.find?] at h3
    | cons a as => simp [hl]
  refine ⟨?_, ?_, ?_⟩
  · rw [processRecord, if_neg (by rw [h1]; simp), if_neg (by rw [hne]; simp),
      h2]
    simp only [h3, h4, h5, h6, h7, h8, h10]
    rw [if_neg (by omega)]
  · intro hnone
    rw [hnone] at h7
    simp [sizeEval] at h7
    exact h7.symm
  · intro s sz hs hsz
    rw [hs] at h7
    have hse : s ≠ "" := by
      intro hscontra
      rw [hscontra] at hsz
      simp [Size.fromString?] at hsz
    simp [sizeEval, hse, hsz] at h7
    exact h7.symm

/-- A successful add-result that provides an explicit size and one
modifier. -/
def sizedResult : RawResult :=
  { added := some true, item_id := some "i1", item_name := some "Egg McMuffin",
    category_name := some "breakfast", quantity := some 3,
    size := some "large", modifiers := some [⟨some "m1", some "Egg"⟩] }

/-- Claim C8 witness: the sized record reconciles into a quantity-3 large
line with the record's modifier and empty available modifiers. -/
theorem c8_witness :
    sizedResult.added.getD false = true ∧
      sizedResult.item_id = some "i1" ∧
      exMenu.items.find? (fun i => decide (i.item_id = "i1")) = some exMenuItem ∧
      sizedResult.item_name = some "Egg McMuffin" ∧
      sizedResult.category_name = some "breakfast" ∧
      CategoryName.fromString? "breakfast" = some CategoryName.breakfast ∧
      sizeEval sizedResult.size = Except.ok (some Size.large) ∧
      sizedResult.quantity = some 3 ∧ (1 : Int) ≤ 3 ∧
      parseModifiers? (sizedResult.modifiers.getD []) = some [exMod] ∧
      (processRecord exMenu exOrder sizedResult = Except.ok (exOrder.addItem
          { item_id := "i1", name := "Egg McMuffin",
            category_name := CategoryName.breakfast,
            default_size := exMenuItem.default_size,
            size := (some Size.large).getD exMenuItem.default_size,
            quantity := 3, modifiers := [exMod], available_modifiers := [] }) ∧
        (sizedResult.size = none → (some Size.large : Option Size) = none) ∧
        (∀ s sz, sizedResult.size = some s → Size.fromString? s = some sz →
          (some Size.large : Option Size) = some sz)) :=
  ⟨by decide, by decide, by decide, by decide, by decide, by decide, by rfl,
    by decide, by decide, by decide,
    c8_line_construction exMenu exOrder sizedResult "i1" exMenuItem
      "Egg McMuffin" "breakfast" CategoryName.breakfast (some Size.large) 3
      [exMod] (by decide) (by decide) (by decide) (by decide) (by decide)
      (by decide) (by rfl) (by decide) (by decide) (by decide)⟩

/-- A malformed successful add-result: `added` is true and the `item_id`
resolves, but `item_name` is absent. -/
def badResult : RawResult :=
  { added := some true, item_id := some "i1", item_name := none,
    category_name := some "breakfast", quantity := some 2, size := none,
    modifiers := some [] }

/-- A state whose in-scope batch holds the malformed record. -/
def c4State : DriveThruState :=
  { messages := [Msg.ai ["add_item_to_order"],
      Msg.tool "add_item_to_order" badResult],
    menu := exMenu, current_order := exOrder, reasoning := [] }

/-- Claim C4 counterexample: reconciliation of an in-scope
`add_item_to_order` record with a missing `item_name` does not skip the
record — the missing-key access raises, aborting the whole turn instead of
completing the batch. -/
theorem c4_counterexample :
    update_order c4State = Except.error "KeyError: item_name" := by
  rfl

/-- Claim C4 amended: records with falsy `added` or an unresolvable id are
skipped (see C7), but a record with `added = true` and a resolving
`item_id` whose remaining fields are missing or invalid raises: a missing
`item_name` raises a key error, a non-enum `category_name` raises a value
error, and a quantity below 1 fails validation — each aborting the turn. -/
theorem c4_malformed_raises (menu : Menu) (o : Order) (r : RawResult)
    (iid : String) (mi : Item)
    (h1 : r.added.getD false = true) (h2 : r.item_id = some iid)
    (h3 : menu.items.find? (fun i => decide (i.item_id = iid)) = some mi) :
    (r.item_name = none →
      processRecord menu o r = .error "KeyError: item_name") ∧
      (∀ nm cs, r.item_name = some nm → r.category_name = some cs →
        CategoryName.fromString? cs = none →
        processRecord menu o r = .error "ValueError: category_name") ∧
      (∀ nm cs cat szo q mods, r.item_name = some nm →
        r.category_name = some cs → CategoryName.fromString? cs = some cat →
        sizeEval r.size = Except.ok szo → r.quantity = some q →
        parseModifiers? (r.modifiers.getD []) = some mods → q < 1 →
        processRecord menu o r = .error "ValidationError: quantity") := by
  have hne : menu.items.isEmpty = false := by
    cases hl : menu.items with
    | nil =>
      rw [hl] at h3
      simp [List.find?] at h3
    | cons a as => simp [hl]
  refine ⟨?_, ?_, ?_⟩
  · intro hnm
    rw [processRecord, if_neg (by rw [h1]; simp), if_neg (by rw [hne]; simp),
      h2]
    simp only [h3, hnm]
  · intro nm cs hnm hcs hcat
    rw [processRecord, if_neg (by rw [h1]; simp), if_neg (by rw [hne]; simp),
      h2]
    simp only [h3, hnm, hcs, hcat]
  · intro nm cs cat szo q mods hnm hcs hcat hsz hq hmods hlt
    rw [processRecord, if_neg (by rw [h1]; simp), if_neg (by rw [hne]; simp),
      h2]
    simp only [h3, hnm, hcs, hcat, hsz, hq, hmods]
    rw [if_pos hlt]

/-- Claim C4 amended witness: the `badResult` record (missing `item_name`)
raises against the concrete menu. -/
theorem c4_witness :
    badResult.added.getD false = true ∧ badResult.item_id = some "i1" ∧
      exMenu.items.find? (fun i => decide (i.item_id = "i1")) = some exMenuItem ∧
      ((badResult.item_name = none →
        processRecord exMenu exOrder badResult = .error "KeyError: item_name") ∧
        (∀ nm cs, badResult.item_name = some nm →
          badResult.category_name = some cs →
          CategoryName.fromString? cs = none →
          processRecord exMenu exOrder badResult =
            .error "ValueError: category_name") ∧
        (∀ nm cs cat szo q mods, badResult.item_name = some nm →
          badResult.category_name = some cs →
          CategoryName.fromString? cs = some cat →
          sizeEval badResult.size = Except.ok szo →
          badResult.quantity = some q →
          parseModifiers? (badResult.modifiers.getD []) = some mods → q < 1 →
          processRecord exMenu exOrder badResult =
            .error "ValidationError: quantity")) :=
  ⟨by decide, by decide, by decide,
    c4_malformed_raises exMenu exOrder badResult "i1" exMenuItem (by decide)
      (by decide) (by decide)⟩
